import Mathlib

/-!
Shallow embedding of the technical-indicator evaluation engine of the
Flask watchlist application (source files: technical_analysis.py, app.py).

Numeric values are modelled as exact rationals (ℚ).  A pandas Series is a
`List ℚ` when no entry can be missing and a `List (Option ℚ)` when entries
may be NaN (`none` models NaN / a non-finite entry; comparisons against a
`none` entry are false, as float comparisons against NaN are).  A pandas
DataFrame is a `Frame`: a row count plus one optional column per column
name the analysis code touches; a missing column models a table that does
not have that column (accessing it raises `KeyError`, modelled by
`Except.error`).  Human-readable message strings are kept, with numeric
interpolation abbreviated (no claim depends on the rendering of a number
inside a message, only on the message being a non-empty explanation).
-/

namespace FlaskTA

/-- Verdict status, rendered in the source as the emoji strings
check-mark / warning / cross. -/
inductive Status where
  | pass
  | warn
  | fail
deriving DecidableEq, Repr, Inhabited

/-- The dynamic "value" payload of a verdict dict: a bare number, a nested
dict of (possibly NaN) numbers, or a string (earnings date). -/
inductive Payload where
  | num (q : ℚ)
  | dict (entries : List (String × Option ℚ))
  | str (s : String)
deriving DecidableEq, Repr, Inhabited

/-- One evaluator outcome: `{"status": ..., "message": ..., "value": ...}`. -/
structure Verdict where
  status : Status
  message : String
  val : Option Payload
deriving DecidableEq, Repr, Inhabited

/-- A pandas DataFrame as used by the analysis code: a row count and the
columns the code can touch.  `none` for a column means the table has no
such column.  Well-formed frames (`Frame.WF`) have every present column of
length `nrows`, which pandas guarantees for frames built from bar data. -/
structure Frame where
  nrows : ℕ
  close? : Option (List ℚ) := none
  high? : Option (List ℚ) := none
  low? : Option (List ℚ) := none
  volume? : Option (List ℚ) := none
  rsi? : Option (List (Option ℚ)) := none
deriving DecidableEq, Repr, Inhabited

/-- pandas invariant: every present column has exactly `nrows` entries. -/
def Frame.WF (df : Frame) : Prop :=
  (∀ c ∈ df.close?, c.length = df.nrows) ∧
  (∀ c ∈ df.high?, c.length = df.nrows) ∧
  (∀ c ∈ df.low?, c.length = df.nrows) ∧
  (∀ c ∈ df.volume?, c.length = df.nrows) ∧
  (∀ c ∈ df.rsi?, c.length = df.nrows)

instance (df : Frame) : Decidable df.WF := by
  unfold Frame.WF; infer_instance

/-- `df.empty` (pandas): no rows. -/
def Frame.empty (df : Frame) : Bool := df.nrows == 0

/-- Accessing column `name` of a frame: `KeyError` when absent. -/
def colE (o : Option (List ℚ)) (name : String) : Except String (List ℚ) :=
  match o with
  | some c => .ok c
  | none => .error ("KeyError: " ++ name)

/-- `series.iloc[-1]`: `IndexError` on an empty series. -/
def lastE {α : Type} (xs : List α) : Except String α :=
  match xs.getLast? with
  | some x => .ok x
  | none => .error "IndexError: single positional indexer is out-of-bounds"

/-- `series.dropna()`. -/
def dropna (s : List (Option ℚ)) : List ℚ := s.filterMap id

/-- The last two entries of a list (`iloc[-2]`, `iloc[-1]`), when the list
has at least two entries. -/
def last2? : List ℚ → Option (ℚ × ℚ)
  | [] => none
  | [_] => none
  | [a, b] => some (a, b)
  | _ :: b :: c :: rest => last2? (b :: c :: rest)

/-- `series.diff()`: first entry NaN, then successive differences. -/
def diff (xs : List ℚ) : List (Option ℚ) :=
  match xs with
  | [] => []
  | _ :: rest => none :: List.zipWith (fun a b => some (a - b)) rest xs

/-- `series.shift(1)`: NaN first, every entry moved one slot later. -/
def shift1 (xs : List (Option ℚ)) : List (Option ℚ) :=
  match xs with
  | [] => []
  | _ => none :: xs.dropLast

/-- Division as pandas produces it for the ratios the evaluators compare
against finite thresholds: a zero denominator yields a non-finite entry
(NaN or an infinity), modelled as an absent entry.  In every reachable
comparison of the source (volumes are non-negative, so a zero rolling mean
forces a zero numerator and hence NaN) the comparison against the
threshold is false, matching `none` here. -/
def divSafe? (a b : ℚ) : Option ℚ :=
  if b = 0 then none else some (a / b)

/-- Trailing-window aggregate: entry `i` is defined once `window` entries
exist (`min_periods = window`, the pandas `rolling` default). -/
def rollingApply (f : List ℚ → ℚ) (window : ℕ) (xs : List ℚ) :
    List (Option ℚ) :=
  (List.range xs.length).map fun i =>
    if window ≤ i + 1 then some (f ((xs.take (i + 1)).drop (i + 1 - window)))
    else none

/-- `series.rolling(window).mean()`. -/
def rollingMean (window : ℕ) (xs : List ℚ) : List (Option ℚ) :=
  rollingApply (fun w => w.sum / (window : ℚ)) window xs

/-- `series.rolling(window).max()`. -/
def rollingMax (window : ℕ) (xs : List ℚ) : List (Option ℚ) :=
  rollingApply (fun w => w.foldr max (w.headD 0)) window xs

/-- Recursion of `ewm(span=..., adjust=False).mean()` after the seed. -/
def ewmSpanGo (a prev : ℚ) : List ℚ → List ℚ
  | [] => []
  | x :: rest =>
    let y := (1 - a) * prev + a * x
    y :: ewmSpanGo a y rest

/-- `series.ewm(span=span, adjust=False).mean()` on a series with no
missing entries: seeded at the first observation, smoothing factor
`2 / (span + 1)`. -/
def ewmSpan (span : ℕ) (xs : List ℚ) : List ℚ :=
  match xs with
  | [] => []
  | x :: rest => x :: ewmSpanGo (2 / ((span : ℚ) + 1)) x rest

/-- Recursion of `ewm(alpha=..., min_periods=minp, adjust=False).mean()`
after the first observation; `count` observations seen so far. -/
def ewmAlphaGo (a : ℚ) (minp : ℕ) (prev : ℚ) (count : ℕ) :
    List (Option ℚ) → List (Option ℚ)
  | [] => []
  | none :: rest => none :: ewmAlphaGo a minp prev count rest
  | some x :: rest =>
    let y := (1 - a) * prev + a * x
    (if minp ≤ count + 1 then some y else none) ::
      ewmAlphaGo a minp y (count + 1) rest

/-- `series.ewm(alpha=a, min_periods=minp, adjust=False).mean()` on a
series whose missing entries form a leading prefix (the only shape fed to
it by the source: the output of `diff` and its clips): output is absent
until `minp` observations have been seen, then follows the
`adjust=False` exponential recursion. -/
def ewmAlphaMean (a : ℚ) (minp : ℕ) : List (Option ℚ) → List (Option ℚ)
  | [] => []
  | none :: rest => none :: ewmAlphaMean a minp rest
  | some x :: rest =>
    (if minp ≤ 1 then some x else none) :: ewmAlphaGo a minp x 1 rest

/-- `delta.clip(lower=0)` pointwise. -/
def clipLower0 (s : List (Option ℚ)) : List (Option ℚ) :=
  s.map (Option.map fun v => max v 0)

/-- `-delta.clip(upper=0)` pointwise. -/
def negClipUpper0 (s : List (Option ℚ)) : List (Option ℚ) :=
  s.map (Option.map fun v => -(min v 0))

/-- Pointwise quotient of two possibly-missing series. -/
def zipDiv (xs ys : List (Option ℚ)) : List (Option ℚ) :=
  List.zipWith
    (fun a b =>
      match a, b with
      | some x, some y => divSafe? x y
      | _, _ => none)
    xs ys

/-- `calculate_rsi(df, period)`: Wilder RSI.  Returns the empty series
when the `Close` column is absent or the frame has fewer than `period`
rows; otherwise smooths the clipped price changes with
`ewm(alpha=1/period, min_periods=period, adjust=False)`.  The source
computes `rs = avg_gain / avg_loss` with float division; a zero average
loss yields a non-finite ratio there (spec section 9 marks this case as
unspecified), modelled here as an absent entry. -/
def calculate_rsi (df : Frame) (period : ℕ := 14) : List (Option ℚ) :=
  match df.close? with
  | none => []
  | some c =>
    if df.nrows < period then []
    else
      let delta := diff c
      let gain := clipLower0 delta
      let loss := negClipUpper0 delta
      let avg_gain := ewmAlphaMean (1 / (period : ℚ)) period gain
      let avg_loss := ewmAlphaMean (1 / (period : ℚ)) period loss
      let rs := zipDiv avg_gain avg_loss
      rs.map (Option.map fun r => 100 - 100 / (1 + r))

/-- `check_rsi_condition(df)`: Fail when the `RSI` column is absent or has
fewer than two non-NaN entries; otherwise Pass exactly when the last two
defined RSI values are both in [30, 60] and the last is strictly greater
than the one before. -/
def check_rsi_condition (df : Frame) : Verdict :=
  match df.rsi? with
  | none => ⟨.fail, "Not enough RSI data", none⟩
  | some rsiCol =>
    match last2? (dropna rsiCol) with
    | none => ⟨.fail, "Not enough RSI data", none⟩
    | some (previous_rsi, current_rsi) =>
      if ((30 ≤ current_rsi ∧ current_rsi ≤ 60) ∧
            (30 ≤ previous_rsi ∧ previous_rsi ≤ 60)) ∧
          current_rsi > previous_rsi then
        ⟨.pass, "RSI is between 30-60 and rising", some (.num current_rsi)⟩
      else
        ⟨.fail, "RSI condition not met", some (.num current_rsi)⟩

/-- `get_macd(data, fast, slow, signal_period)`: the empty pair when the
frame has fewer than `slow` rows; otherwise MACD = EMA(fast) − EMA(slow)
of the `Close` column and Signal = EMA(signal_period) of MACD.  Accessing
the `Close` column of a frame that has none raises, modelled as
`Except.error`. -/
def get_macd (data : Frame) (fast : ℕ := 12) (slow : ℕ := 26)
    (signal_period : ℕ := 9) : Except String (List ℚ × List ℚ) :=
  if data.nrows < slow then .ok ([], [])
  else
    match colE data.close? "Close" with
    | .error e => .error e
    | .ok c =>
      let ema_fast := ewmSpan fast c
      let ema_slow := ewmSpan slow c
      let macd := List.zipWith (fun a b => a - b) ema_fast ema_slow
      let signal_line := ewmSpan signal_period macd
      .ok (macd, signal_line)

/-- `check_macd_crossover_or_rising(macd, signal)`: Fail when either
series has fewer than two defined entries; otherwise Pass exactly when
over the last two defined entries of each series either MACD crossed
above Signal (last MACD > last Signal and previous MACD ≤ previous
Signal) or the MACD is rising (last MACD > previous MACD). -/
def check_macd_crossover_or_rising (macd signal : List (Option ℚ)) :
    Verdict :=
  let m := dropna macd
  let s := dropna signal
  match last2? m, last2? s with
  | some (macd_prev, macd_last), some (signal_prev, signal_last) =>
    if (macd_last > signal_last ∧ macd_prev ≤ signal_prev) ∨
        macd_last > macd_prev then
      ⟨.pass, "MACD is rising or has crossed above the signal line",
        some (.dict [("macd", some macd_last), ("signal", some signal_last)])⟩
    else
      ⟨.fail, "MACD condition not met",
        some (.dict [("macd", some macd_last), ("signal", some signal_last)])⟩
  | _, _ => ⟨.fail, "Not enough MACD data", none⟩

/-- Successive differences padded with 0 at the first bar, as the
directional-movement computation uses them. -/
def deltaSeries (xs : List ℚ) : List ℚ :=
  match xs with
  | [] => []
  | _ => 0 :: List.zipWith (fun b a => b - a) (xs.drop 1) xs

/-- Recursion of Wilder running-sum smoothing past the seed. -/
def wilderSumGo (n prev : ℚ) : List ℚ → List ℚ
  | [] => []
  | x :: rest =>
    let y := prev - prev / n + x
    y :: wilderSumGo n y rest

/-- Wilder running-sum smoothing over `window` (seeded with the sum of the
first `window` entries, then `s ↦ s - s/window + x`); slots before the
seed, and every slot of a too-short series, hold 0 as the ta library's
fill does. -/
def wilderSum (window : ℕ) (xs : List ℚ) : List ℚ :=
  if xs.length < window ∨ window = 0 then xs.map fun _ => 0
  else
    let seed := (xs.take window).sum
    List.replicate (window - 1) 0 ++
      seed :: wilderSumGo (window : ℚ) seed (xs.drop window)

/-- Recursion of Wilder running-average smoothing past the seed. -/
def wilderAvgGo (n prev : ℚ) : List ℚ → List ℚ
  | [] => []
  | x :: rest =>
    let y := (prev * (n - 1) + x) / n
    y :: wilderAvgGo n y rest

/-- Wilder running-average smoothing over `window` (seeded with the mean
of the first `window` entries, then `s ↦ ((window-1)·s + x)/window`). -/
def wilderAvg (window : ℕ) (xs : List ℚ) : List ℚ :=
  if xs.length < window ∨ window = 0 then xs.map fun _ => 0
  else
    let seed := (xs.take window).sum / (window : ℚ)
    List.replicate (window - 1) 0 ++
      seed :: wilderAvgGo (window : ℚ) seed (xs.drop window)

/-- Division with the ta library's convention of a 0 result where the
float computation would be non-finite. -/
def divZ (a b : ℚ) : ℚ := if b = 0 then 0 else a / b

/-- True range: `high − low` at the first bar, then
`max(high − low, |high − prevClose|, |low − prevClose|)`. -/
def trueRange (high low close : List ℚ) : List ℚ :=
  match high, low, close with
  | h0 :: hs, l0 :: ls, _ :: _ =>
    (h0 - l0) ::
      List.zipWith (fun (hl : ℚ × ℚ) cp =>
          max (hl.1 - hl.2) (max |hl.1 - cp| |hl.2 - cp|))
        (List.zipWith Prod.mk hs ls) close
  | _, _, _ => []

/-- `ta.trend.ADXIndicator(high, low, close, window)`: the standard Wilder
directional-movement computation — smoothed true range and directional
moves, +DI/−DI as percentages of smoothed TR, DX from their spread, ADX as
the Wilder average of DX.  Returns `(adx, plus_di, minus_di)`.  The ta
library's exact fill conventions for the leading undefined slots are
abbreviated to 0; no claim in this development depends on the numeric DMI
values, only on the evaluator's length guard, its exception boundary and
the threshold comparison applied to the final values. -/
def adxIndicator (high low close : List ℚ) (window : ℕ) :
    List ℚ × List ℚ × List ℚ :=
  let tr := trueRange high low close
  let up := deltaSeries high
  let down := (deltaSeries low).map Neg.neg
  let dmPlus := List.zipWith (fun u d => if u > d ∧ u > 0 then u else 0) up down
  let dmMinus := List.zipWith (fun u d => if d > u ∧ d > 0 then d else 0) up down
  let smTR := wilderSum window tr
  let diPlus := List.zipWith (fun a b => 100 * divZ a b) (wilderSum window dmPlus) smTR
  let diMinus := List.zipWith (fun a b => 100 * divZ a b) (wilderSum window dmMinus) smTR
  let dx := List.zipWith (fun p m => 100 * divZ |p - m| (p + m)) diPlus diMinus
  (wilderAvg window dx, diPlus, diMinus)

/-- The `try` body of `check_dmi_trend`: column accesses and the trailing
`iloc[-1]` reads can raise; the threshold test is
`last ADX > 20 and last +DI > last −DI`. -/
def check_dmi_trend_body (df : Frame) : Except String Verdict :=
  match colE df.high? "High" with
  | .error e => .error e
  | .ok high =>
    match colE df.low? "Low" with
    | .error e => .error e
    | .ok low =>
      match colE df.close? "Close" with
      | .error e => .error e
      | .ok close =>
        let res := adxIndicator high low close 14
        match lastE res.1, lastE res.2.1, lastE res.2.2 with
        | .ok last_adx, .ok last_plus_di, .ok last_minus_di =>
          if last_adx > 20 ∧ last_plus_di > last_minus_di then
            .ok ⟨.pass, "Bullish DMI trend confirmed",
              some (.dict [("adx", some last_adx),
                ("plus_di", some last_plus_di),
                ("minus_di", some last_minus_di)])⟩
          else
            .ok ⟨.fail, "DMI condition not met",
              some (.dict [("adx", some last_adx),
                ("plus_di", some last_plus_di),
                ("minus_di", some last_minus_di)])⟩
        | _, _, _ =>
          .error "IndexError: single positional indexer is out-of-bounds"

/-- `check_dmi_trend(df)`: Fail below 28 rows; otherwise the body runs
under `try`, any raised error becoming a Fail verdict carrying its text. -/
def check_dmi_trend (df : Frame) : Verdict :=
  if df.nrows < 28 then
    ⟨.fail, "Not enough data for DMI calculation", none⟩
  else
    match check_dmi_trend_body df with
    | .ok v => v
    | .error e => ⟨.fail, "Error calculating DMI: " ++ e, none⟩

/-- `check_ema_crossover(df, fast=8, slow=21)`: Fail below `slow` rows;
otherwise computes the two span EMAs of the `Close` column — with no
`try` guard, so a frame of enough rows but no `Close` column raises — and
passes exactly when the fast EMA was at or below the slow EMA at the
previous bar and is strictly above it at the last bar. -/
def check_ema_crossover (df : Frame) (fast : ℕ := 8) (slow : ℕ := 21) :
    Except String Verdict :=
  if df.nrows < slow then
    .ok ⟨.fail, "Not enough data for EMA calculation", none⟩
  else
    match colE df.close? "Close" with
    | .error e => .error e
    | .ok c =>
      let ema_fast := ewmSpan fast c
      let ema_slow := ewmSpan slow c
      if df.nrows < 2 then
        .ok ⟨.fail, "Not enough data to check for crossover", none⟩
      else
        match last2? ema_fast, last2? ema_slow with
        | some (prev_fast, curr_fast), some (prev_slow, curr_slow) =>
          if prev_fast ≤ prev_slow ∧ curr_fast > curr_slow then
            .ok ⟨.pass, "EMA 8 just crossed above EMA 21",
              some (.dict [("ema_fast", some curr_fast),
                ("ema_slow", some curr_slow)])⟩
          else
            .ok ⟨.fail, "No recent bullish EMA crossover",
              some (.dict [("ema_fast", some curr_fast),
                ("ema_slow", some curr_slow)])⟩
        | _, _ =>
          .error "IndexError: single positional indexer is out-of-bounds"

/-- Float comparison `a > b` where `b` may be NaN (absent): false against
NaN. -/
def gtOpt (a : ℚ) : Option ℚ → Bool
  | some b => a > b
  | none => false

/-- Float comparison `v > 2` where `v` may be NaN (absent). -/
def gt2Opt : Option ℚ → Bool
  | some v => v > 2
  | none => false

/-- The 20-bar relative volume series:
`rvol = df['Volume'] / df['Volume'].rolling(window=20).mean()`, each entry
the bar's volume over the trailing 20-bar mean volume (the mean includes
the current bar), absent while the mean is undefined. -/
def rvolSeries (volume : List ℚ) : List (Option ℚ) :=
  List.zipWith
    (fun v m =>
      match m with
      | some mm => divSafe? v mm
      | none => none)
    volume (rollingMean 20 volume)

/-- The resistance series:
`df['Close'].rolling(window=30).max().shift(1)` — the 30-bar rolling
maximum of close excluding the current bar. -/
def resistanceSeries (close : List ℚ) : List (Option ℚ) :=
  shift1 (rollingMax 30 close)

/-- The `try` body of `check_short_squeeze_risk`: 20-bar mean close
(computed and unused by the source), 20-bar relative volume, 30-bar
rolling maximum of close shifted back one bar as resistance, breakout when
the last close strictly exceeds the last resistance and the last relative
volume strictly exceeds 2, with comparisons against undefined (NaN)
entries false. -/
def check_short_squeeze_risk_body (df : Frame) : Except String Verdict :=
  match colE df.close? "Close" with
  | .error e => .error e
  | .ok close =>
    match colE df.volume? "Volume" with
    | .error e => .error e
    | .ok volume =>
      let _ma20 := rollingMean 20 close
      let rvol := rvolSeries volume
      let resistance := resistanceSeries close
      match lastE close, lastE resistance, lastE rvol with
      | .ok last_close, .ok last_resistance, .ok last_rvol =>
        if gtOpt last_close last_resistance && gt2Opt last_rvol then
          .ok ⟨.warn,
            "Potential short squeeze risk detected! Price broke resistance on high relative volume",
            some (.dict [("rvol", last_rvol), ("resistance", last_resistance),
              ("price", some last_close)])⟩
        else
          .ok ⟨.pass, "No major short squeeze risk detected",
            some (.dict [("rvol", last_rvol), ("resistance", last_resistance),
              ("price", some last_close)])⟩
      | _, _, _ =>
        .error "IndexError: single positional indexer is out-of-bounds"

/-- `check_short_squeeze_risk(df)`: Fail below 30 rows; otherwise the body
runs under `try`, any raised error becoming a Fail verdict carrying its
text. -/
def check_short_squeeze_risk (df : Frame) : Verdict :=
  if df.nrows < 30 then
    ⟨.fail, "Not enough data for squeeze analysis", none⟩
  else
    match check_short_squeeze_risk_body df with
    | .ok v => v
    | .error e => ⟨.fail, "Error analyzing squeeze risk: " ++ e, none⟩

/-- Asset class of a watchlist entry. -/
inductive AssetType where
  | stock
  | option
deriving DecidableEq, Repr, Inhabited

/-- The per-request criteria flags, as assembled by the analyze route. -/
structure Criteria where
  avoid_squeeze : Bool
  rsi_confirmation : Bool
  dmi_confirmation : Bool
  ema_crossover : Bool
  macd_crossover : Bool
  weekly_macd : Bool
  next_earning_date : Bool
deriving DecidableEq, Repr, Inhabited

/-- `{"value": current_price, "formatted": ...}` in the result dict. -/
structure PriceInfo where
  val : Option ℚ
  formatted : String
deriving DecidableEq, Repr, Inhabited

/-- The formatted price string: Python truthiness makes both a missing
price and a price of exactly 0 render as "N/A"; the decimal rendering of a
present price is abbreviated. -/
def formatPrice (p : Option ℚ) : String :=
  match p with
  | some q => if q = 0 then "N/A" else "$" ++ toString q.num
  | none => "N/A"

/-- The per-ticker result dict assembled by `analyze_ticker`: the three
metadata entries always present, plus one optional verdict per criterion
key, `none` modelling a key the source never inserted. -/
structure AnalysisResult where
  ticker : String
  asset_type : AssetType
  current_price : PriceInfo
  rsi_confirmation : Option Verdict := none
  dmi_confirmation : Option Verdict := none
  ema_crossover : Option Verdict := none
  macd_crossover : Option Verdict := none
  weekly_macd : Option Verdict := none
  avoid_squeeze : Option Verdict := none
  next_earning_date : Option Verdict := none
deriving DecidableEq, Repr, Inhabited

/-- Pad a column being assigned into a frame to the frame's row count, as
pandas index alignment does (assigning an empty series to a non-empty
frame yields an all-NaN column). -/
def padTo (n : ℕ) (xs : List (Option ℚ)) : List (Option ℚ) :=
  xs.take n ++ List.replicate (n - xs.length) none

/-- `df['RSI'] = series`: column assignment with index alignment. -/
def setRSI (df : Frame) (xs : List (Option ℚ)) : Frame :=
  { df with rsi? := some (padTo df.nrows xs) }

/-- Python truthiness of an optional string: `None` and `""` are falsy. -/
def strTruthy : Option String → Bool
  | some s => s ≠ ""
  | none => false

/-- The earnings verdict built from the api client's
`get_next_earnings_date` response `(earnings_date, earnings_error)`. -/
def earningsVerdict (resp : Option String × String) : Verdict :=
  ⟨if strTruthy resp.1 then .pass else .fail,
    (match resp.1 with
    | some d => if d ≠ "" then d else resp.2
    | none => resp.2),
    resp.1.map Payload.str⟩

/-- The state of `data_df` after the rsi block of `analyze_ticker`: when
the block runs (non-empty frame, flag set) the source executes
`data_df['RSI'] = self.calculate_rsi(data_df)`, mutating the frame;
otherwise the frame is untouched. -/
def rsiFrameStep (data_df : Frame) (criteria : Criteria) : Frame :=
  if data_df.empty = false ∧ criteria.rsi_confirmation = true then
    setRSI data_df (calculate_rsi data_df)
  else data_df

/-- `analyze_ticker(ticker, asset_type, data_df, daily_df, current_price,
criteria, api_client)`.  The api client's earnings response is passed in
as `earnings` (the only call made on the client).  Returns the result dict
together with the final state of `data_df`, which the source mutates by
assigning an `RSI` column; an uncaught exception from
`check_ema_crossover` or `get_macd` propagates as `Except.error`.
Criterion blocks run in source order: all indicator blocks only when
`data_df` is non-empty, the stock-only blocks only for `asset_type =
Stock`, and the earnings block (stock-only) regardless of `data_df`. -/
def analyze_ticker (ticker : String) (asset_type : AssetType)
    (data_df daily_df : Frame) (current_price : Option ℚ)
    (criteria : Criteria) (earnings : Option String × String) :
    Except String (AnalysisResult × Frame) :=
  let result0 : AnalysisResult :=
    { ticker := ticker
      asset_type := asset_type
      current_price := ⟨current_price, formatPrice current_price⟩ }
  let df1 := rsiFrameStep data_df criteria
  let r1 :=
    if data_df.empty = false ∧ criteria.rsi_confirmation = true then
      { result0 with rsi_confirmation := some (check_rsi_condition df1) }
    else result0
  let r2 :=
    if data_df.empty = false ∧ criteria.dmi_confirmation = true ∧
        asset_type = .stock then
      { r1 with dmi_confirmation := some (check_dmi_trend daily_df) }
    else r1
  let step3 : Except String AnalysisResult :=
    if data_df.empty = false ∧ criteria.ema_crossover = true ∧
        asset_type = .stock then
      match check_ema_crossover daily_df with
      | .error e => .error e
      | .ok v => .ok { r2 with ema_crossover := some v }
    else .ok r2
  match step3 with
  | .error e => .error e
  | .ok r3 =>
    let step4 : Except String AnalysisResult :=
      if data_df.empty = false ∧ criteria.macd_crossover = true ∧
          asset_type = .stock then
        match get_macd daily_df 8 21 9 with
        | .error e => .error e
        | .ok (daily_macd, daily_signal) =>
          let v := check_macd_crossover_or_rising
            (daily_macd.map some) (daily_signal.map some)
          .ok { r3 with macd_crossover := some v }
      else .ok r3
    match step4 with
    | .error e => .error e
    | .ok r4 =>
      let step5 : Except String AnalysisResult :=
        if data_df.empty = false ∧ criteria.weekly_macd = true ∧
            asset_type = .stock then
          match get_macd df1 12 26 9 with
          | .error e => .error e
          | .ok (weekly_macd, weekly_signal) =>
            let v := check_macd_crossover_or_rising
              (weekly_macd.map some) (weekly_signal.map some)
            .ok { r4 with weekly_macd := some v }
        else .ok r4
      match step5 with
      | .error e => .error e
      | .ok r5 =>
        let r6 :=
          if data_df.empty = false ∧ criteria.avoid_squeeze = true ∧
              asset_type = .stock then
            { r5 with avoid_squeeze := some (check_short_squeeze_risk daily_df) }
          else r5
        let r7 :=
          if criteria.next_earning_date = true ∧ asset_type = .stock then
            { r6 with next_earning_date := some (earningsVerdict earnings) }
          else r6
        .ok (r7, df1)

/-- A value of the result dict, as the presentation filter iterates it. -/
inductive DictVal where
  | strV (s : String)
  | assetV (a : AssetType)
  | priceV (p : PriceInfo)
  | verdictV (v : Verdict)
deriving DecidableEq, Repr, Inhabited

/-- The criterion keys of the result dict paired with whether the
orchestrator populated them, in insertion order. -/
def AnalysisResult.critEntries (r : AnalysisResult) :
    List (String × Option Verdict) :=
  [("rsi_confirmation", r.rsi_confirmation),
   ("dmi_confirmation", r.dmi_confirmation),
   ("ema_crossover", r.ema_crossover),
   ("macd_crossover", r.macd_crossover),
   ("weekly_macd", r.weekly_macd),
   ("avoid_squeeze", r.avoid_squeeze),
   ("next_earning_date", r.next_earning_date)]

/-- `result.items()`: the metadata entries followed by the populated
criterion verdicts, in insertion order. -/
def AnalysisResult.items (r : AnalysisResult) : List (String × DictVal) :=
  [("ticker", .strV r.ticker),
   ("asset_type", .assetV r.asset_type),
   ("current_price", .priceV r.current_price)] ++
    r.critEntries.filterMap fun kv => kv.2.map fun v => (kv.1, DictVal.verdictV v)

/-- The keys the passing filter skips. -/
def metadataKeys : List String := ["ticker", "asset_type", "current_price"]

/-- `value.get('status')` on a dict-shaped value; the filter only applies
it to values whose key survived the metadata-key filter, which in the
source are exactly the verdict dicts. -/
def DictVal.statusGet : DictVal → Option Status
  | .verdictV v => some v.status
  | _ => none

/-- The composite pass filter of the analyze route: keep a result when any
non-metadata entry has Pass or Warn status. -/
def passesFilter (r : AnalysisResult) : Bool :=
  (r.items.filter fun kv => !(metadataKeys.contains kv.1)).any fun kv =>
    kv.2.statusGet == some .pass || kv.2.statusGet == some .warn

/-- `passing_results`: the passing view of the analyze route. -/
def filterPassing (results : List AnalysisResult) : List AnalysisResult :=
  results.filter passesFilter

/-- The empty frame. -/
def frame0 : Frame := { nrows := 0 }

/-- Whether an orchestrator call returned normally. -/
def isOk {e a : Type} : Except e a → Bool
  | .ok _ => true
  | .error _ => false

/-- The result dict of an orchestrator call that returned normally. -/
def okResultOf (x : Except String (AnalysisResult × Frame)) :
    AnalysisResult :=
  match x with
  | .ok rd => rd.1
  | .error _ => default

/-- The final state of the long frame after an orchestrator call that
returned normally. -/
def okFrameOf (x : Except String (AnalysisResult × Frame)) : Frame :=
  match x with
  | .ok rd => rd.2
  | .error _ => default

/-- Every criteria flag enabled. -/
def allCriteria : Criteria := ⟨true, true, true, true, true, true, true⟩

/-- Only the rsi_confirmation flag enabled. -/
def rsiOnlyCriteria : Criteria := ⟨false, true, false, false, false, false, false⟩

/-- Option-asset example frame: one bar of data. -/
def optFrame : Frame := { nrows := 1, close? := some [5] }

/-- The orchestrator call of the C4 witness. -/
def c4Out : Except String (AnalysisResult × Frame) :=
  analyze_ticker "OPT" .option optFrame optFrame none allCriteria
    (none, "no earnings")

/-- The orchestrator call of the C8 examples: empty long series, every
criterion enabled, Stock asset. -/
def c8Out : Except String (AnalysisResult × Frame) :=
  analyze_ticker "TICK" .stock frame0 frame0 none allCriteria
    (none, "upstream error")

/-- The frame of the C9 examples: one bar of data, no RSI column. -/
def rsiMutFrame : Frame := { nrows := 1, close? := some [5] }

/-- The orchestrator call of the C9 examples: Stock asset, only
rsi_confirmation enabled, non-empty long series. -/
def c9Out : Except String (AnalysisResult × Frame) :=
  analyze_ticker "MUT" .stock rsiMutFrame frame0 none rsiOnlyCriteria
    (none, "e")

/-- A result whose every evaluated criterion failed. -/
def allFailResult : AnalysisResult :=
  { ticker := "F", asset_type := .stock, current_price := ⟨none, "N/A"⟩,
    rsi_confirmation := some ⟨.fail, "RSI condition not met", none⟩,
    dmi_confirmation := some ⟨.fail, "DMI condition not met", none⟩,
    macd_crossover := some ⟨.fail, "MACD condition not met", none⟩ }

/-- A result with one Warn among Fails. -/
def oneWarnResult : AnalysisResult :=
  { ticker := "W", asset_type := .stock, current_price := ⟨none, "N/A"⟩,
    rsi_confirmation := some ⟨.fail, "RSI condition not met", none⟩,
    avoid_squeeze :=
      some ⟨.warn, "Potential short squeeze risk detected!", none⟩ }

/-- 31-bar breakout frame from the spec's squeeze example: 30 flat bars
(Close 100, Volume 1000) then a breakout bar (Close 105, Volume 3000). -/
def sqWarnFrame : Frame :=
  { nrows := 31, close? := some (List.replicate 30 100 ++ [105]),
    volume? := some (List.replicate 30 1000 ++ [3000]) }

/-- The same price breakout on flat volume (relative volume 1). -/
def sqPassFrame : Frame :=
  { nrows := 31, close? := some (List.replicate 30 100 ++ [105]),
    volume? := some (List.replicate 31 1000) }

/-- A 30-row frame with no columns at all: the squeeze body raises. -/
def sqErrFrame : Frame := { nrows := 30 }

/-- The MACD series of the spec's worked example (section 8). -/
def macdExampleM : List (Option ℚ) := [some (-1), some (-1/2), some (1/5)]

/-- The Signal series of the spec's worked example (section 8). -/
def macdExampleS : List (Option ℚ) := [some (-4/5), some (-3/5), some (1/10)]

/-- A three-bar frame, shorter than every indicator lookback. -/
def tinyFrame : Frame := { nrows := 3, close? := some [1, 2, 3] }

/-- A malformed bar table: 21 rows with High/Low/Volume columns but no
Close column (the shape produced upstream when the source feed omits the
close field). -/
def noCloseFrame : Frame :=
  { nrows := 21, high? := some (List.replicate 21 1),
    low? := some (List.replicate 21 1),
    volume? := some (List.replicate 21 1) }

/-- The status of an evaluator call that did not raise. -/
def okStatus (x : Except String Verdict) : Option Status :=
  match x with
  | .ok v => some v.status
  | .error _ => none

/-- The close series of the spec's EMA example: a 21-bar series on which
the fast EMA crosses above the slow EMA exactly at the last bar. -/
def emaClose21 : List ℚ := List.replicate 19 10 ++ [9, 11]

/-- 21-bar frame for the EMA example. -/
def emaFrame21 : Frame := { nrows := 21, close? := some emaClose21 }

/-- One more flat bar after the crossover: the crossover happened one bar
earlier, not at the last bar. -/
def emaClose22 : List ℚ := List.replicate 19 10 ++ [9, 11, 11]

/-- 22-bar frame for the stale-crossover example. -/
def emaFrame22 : Frame := { nrows := 22, close? := some emaClose22 }

/-- The insufficient-data Fail verdict of the EMA evaluator. -/
def emaNotEnoughV : Verdict :=
  ⟨.fail, "Not enough data for EMA calculation", none⟩

/-! ### Lemmas and claims -/

theorem last2?_cons_cons :
    ∀ (rest : List ℚ) (a b : ℚ), ∃ p, last2? (a :: b :: rest) = some p
  | [], a, b => ⟨(a, b), rfl⟩
  | c :: rs, a, b => by
    obtain ⟨p, hp⟩ := last2?_cons_cons rs b c
    exact ⟨p, by simpa [last2?] using hp⟩

theorem last2?_eq_none_iff (l : List ℚ) : last2? l = none ↔ l.length < 2 := by
  match l with
  | [] => simp [last2?]
  | [a] => simp [last2?]
  | a :: b :: rest =>
    obtain ⟨p, hp⟩ := last2?_cons_cons rest a b
    simp [hp, List.length_cons]

/-- The value `last2?` extracts really is the pair of entries at positions
`length - 2` (`iloc[-2]`) and `length - 1` (`iloc[-1]`). -/
theorem last2?_spec :
    ∀ (l : List ℚ) (a b : ℚ), last2? l = some (a, b) →
      l.get? (l.length - 2) = some a ∧ l.get? (l.length - 1) = some b
  | [], a, b => by simp [last2?]
  | [x], a, b => by simp [last2?]
  | [x, y], a, b => by
    intro h
    obtain ⟨rfl, rfl⟩ : x = a ∧ y = b := by
      simpa [last2?] using h
    simp
  | x :: y :: z :: rest, a, b => by
    intro h
    have h' : last2? (y :: z :: rest) = some (a, b) := by
      simpa [last2?] using h
    obtain ⟨h1, h2⟩ := last2?_spec (y :: z :: rest) a b h'
    have hl1 : (x :: y :: z :: rest).length - 2 = ((y :: z :: rest).length - 2) + 1 := by
      simp [List.length_cons]
    have hl2 : (x :: y :: z :: rest).length - 1 = ((y :: z :: rest).length - 1) + 1 := by
      simp [List.length_cons]
    rw [hl1, hl2]
    exact ⟨by rw [List.get?_cons_succ]; exact h1,
      by rw [List.get?_cons_succ]; exact h2⟩

theorem ewmSpanGo_length (a : ℚ) :
    ∀ (prev : ℚ) (xs : List ℚ), (ewmSpanGo a prev xs).length = xs.length
  | _, [] => rfl
  | prev, x :: rest => by
    simp [ewmSpanGo, ewmSpanGo_length a _ rest]

theorem ewmSpan_length (span : ℕ) (xs : List ℚ) :
    (ewmSpan span xs).length = xs.length := by
  match xs with
  | [] => rfl
  | x :: rest => simp [ewmSpan, ewmSpanGo_length]

theorem rollingApply_length (f : List ℚ → ℚ) (window : ℕ) (xs : List ℚ) :
    (rollingApply f window xs).length = xs.length := by
  simp [rollingApply]

theorem shift1_length (xs : List (Option ℚ)) : (shift1 xs).length = xs.length := by
  match xs with
  | [] => rfl
  | x :: rest => simp [shift1]

theorem resistanceSeries_length (close : List ℚ) :
    (resistanceSeries close).length = close.length := by
  simp [resistanceSeries, shift1_length, rollingMax, rollingApply_length]

theorem rvolSeries_length (volume : List ℚ) :
    (rvolSeries volume).length = volume.length := by
  simp [rvolSeries, rollingMean, rollingApply_length]

theorem getLast?_isSome_of_length {α : Type} (l : List α) (h : 0 < l.length) :
    ∃ x, l.getLast? = some x := by
  match l with
  | [] => simp at h
  | x :: rest => exact ⟨(x :: rest).getLast (by simp), List.getLast?_eq_getLast _ _⟩

theorem last2?_isSome_of_length (l : List ℚ) (h : 2 ≤ l.length) :
    ∃ p, last2? l = some p := by
  match l with
  | [] => simp at h
  | [a] => simp at h
  | a :: b :: rest => exact last2?_cons_cons rest a b

/-- The frame effect of the rsi block, case-split on whether it ran: the
row count and every bar column are unchanged; the frame is identical when
the block did not run, and is the input with the RSI column written when
it did. -/
theorem rsiFrameStep_effect (data_df : Frame) (criteria : Criteria) :
    (rsiFrameStep data_df criteria).nrows = data_df.nrows ∧
    (rsiFrameStep data_df criteria).close? = data_df.close? ∧
    (rsiFrameStep data_df criteria).high? = data_df.high? ∧
    (rsiFrameStep data_df criteria).low? = data_df.low? ∧
    (rsiFrameStep data_df criteria).volume? = data_df.volume? ∧
    ((criteria.rsi_confirmation = false ∨ data_df.empty = true) →
      rsiFrameStep data_df criteria = data_df) ∧
    (criteria.rsi_confirmation = true → data_df.empty = false →
      rsiFrameStep data_df criteria =
        setRSI data_df (calculate_rsi data_df)) := by
  unfold rsiFrameStep
  split_ifs with hcond
  · refine ⟨rfl, rfl, rfl, rfl, rfl, fun h1 => ?_, fun _ _ => rfl⟩
    rcases h1 with h | h
    · rw [hcond.2] at h; cases h
    · rw [hcond.1] at h; cases h
  · exact ⟨rfl, rfl, rfl, rfl, rfl, fun _ => rfl,
      fun h1 h2 => absurd ⟨h2, h1⟩ hcond⟩

/-- C1.  The MACD crossover-or-rising evaluator passes exactly when, over
the last two defined points of each series, either MACD crossed above
Signal (previous MACD ≤ previous Signal and last MACD > last Signal) or
the MACD is rising (last MACD > previous MACD); it fails when either
series has fewer than two defined points or when neither condition holds
(the verdict is always Pass or Fail), and the verdict depends only on the
last two defined points of each series, so defined points earlier than
those never affect it. -/
theorem macd_crossover_or_rising_spec (macd signal : List (Option ℚ)) :
    (((dropna macd).length < 2 ∨ (dropna signal).length < 2) →
      (check_macd_crossover_or_rising macd signal).status = .fail) ∧
    (∀ mp ml sp sl, last2? (dropna macd) = some (mp, ml) →
      last2? (dropna signal) = some (sp, sl) →
      ((check_macd_crossover_or_rising macd signal).status = .pass ↔
        ((mp ≤ sp ∧ ml > sl) ∨ ml > mp))) ∧
    ((check_macd_crossover_or_rising macd signal).status = .pass ∨
      (check_macd_crossover_or_rising macd signal).status = .fail) ∧
    (∀ macd2 signal2, last2? (dropna macd) = last2? (dropna macd2) →
      last2? (dropna signal) = last2? (dropna signal2) →
      (check_macd_crossover_or_rising macd signal).status =
        (check_macd_crossover_or_rising macd2 signal2).status) := by
  refine ⟨?_, ?_, ?_, ?_⟩
  · intro h
    rcases h with h | h
    · have hm := (last2?_eq_none_iff (dropna macd)).mpr h
      unfold check_macd_crossover_or_rising
      rcases hs : last2? (dropna signal) with _ | p <;> simp [hm, hs]
    · have hs := (last2?_eq_none_iff (dropna signal)).mpr h
      unfold check_macd_crossover_or_rising
      rcases hm : last2? (dropna macd) with _ | p <;> simp [hm, hs]
  · intro mp ml sp sl hm hs
    simp only [check_macd_crossover_or_rising]
    rw [hm, hs]
    simp only []
    split_ifs with hcond
    · exact iff_of_true rfl (by tauto)
    · exact iff_of_false (by decide) (by tauto)
  · simp only [check_macd_crossover_or_rising]
    rcases hm : last2? (dropna macd) with _ | ⟨mp, ml⟩ <;>
      rcases hs : last2? (dropna signal) with _ | ⟨sp, sl⟩ <;>
      try exact Or.inr rfl
    simp only []
    split_ifs with hcond
    · exact Or.inl rfl
    · exact Or.inr rfl
  · intro macd2 signal2 hm hs
    simp only [check_macd_crossover_or_rising]
    rw [← hm, ← hs]

/-- C2.  The short-squeeze evaluator: below 30 bars it fails; at 30 or
more bars on a frame with Close and Volume columns it returns Warn or
Pass (no error), with Warn exactly when the last close strictly exceeds
the last defined resistance (30-bar rolling maximum of close shifted back
one bar) and the last defined relative volume (volume over its trailing
20-bar mean) strictly exceeds 2, and Pass otherwise; and any raised
computation error at 30 or more bars becomes a Fail verdict. -/
theorem short_squeeze_spec (df : Frame) (c w : List ℚ)
    (hc : df.close? = some c) (hv : df.volume? = some w)
    (hcl : c.length = df.nrows) (hvl : w.length = df.nrows) :
    (df.nrows < 30 → (check_short_squeeze_risk df).status = .fail) ∧
    (30 ≤ df.nrows →
      ((check_short_squeeze_risk df).status = .warn ∨
        (check_short_squeeze_risk df).status = .pass) ∧
      (∀ lc r rv, c.getLast? = some lc →
        (resistanceSeries c).getLast? = some (some r) →
        (rvolSeries w).getLast? = some (some rv) →
        ((check_short_squeeze_risk df).status = .warn ↔ (lc > r ∧ rv > 2)))) ∧
    (∀ df2 e, 30 ≤ df2.nrows →
      check_short_squeeze_risk_body df2 = .error e →
      (check_short_squeeze_risk df2).status = .fail) := by
  refine ⟨?_, ?_, ?_⟩
  · intro h
    simp [check_short_squeeze_risk, h]
  · intro h30
    have h30' : ¬ df.nrows < 30 := by omega
    constructor
    · obtain ⟨lc0, hlc0⟩ := getLast?_isSome_of_length c (by omega)
      obtain ⟨rl0, hrl0⟩ := getLast?_isSome_of_length (resistanceSeries c)
        (by rw [resistanceSeries_length]; omega)
      obtain ⟨vl0, hvl0⟩ := getLast?_isSome_of_length (rvolSeries w)
        (by rw [rvolSeries_length]; omega)
      simp only [check_short_squeeze_risk, if_neg h30',
        check_short_squeeze_risk_body, hc, hv, colE, lastE, hlc0, hrl0, hvl0]
      try simp only []
      split_ifs
      · exact Or.inl rfl
      · exact Or.inr rfl
    · intro lc r rv hlc hrl hrv
      simp only [check_short_squeeze_risk, if_neg h30',
        check_short_squeeze_risk_body, hc, hv, colE, lastE, hlc, hrl, hrv]
      simp only [gtOpt, gt2Opt]
      split_ifs with hcond
      · refine iff_of_true rfl ?_
        simpa [Bool.and_eq_true, decide_eq_true_eq] using hcond
      · refine iff_of_false (by decide) ?_
        simpa [Bool.and_eq_true, decide_eq_true_eq] using hcond
  · intro df2 e h30 hbody
    have h30' : ¬ df2.nrows < 30 := by omega
    simp [check_short_squeeze_risk, if_neg h30', hbody]

/-- C4.  For Option assets the orchestrator never populates the
stock-only criteria — dmi, ema, macd, weekly macd, squeeze, earnings —
regardless of the flags, while rsi confirmation is still evaluated
whenever its flag is set and the long series is non-empty. -/
theorem option_skips_stock_criteria (ticker : String)
    (data_df daily_df : Frame) (price : Option ℚ) (criteria : Criteria)
    (earnings : Option String × String) (r : AnalysisResult) (df' : Frame)
    (h : analyze_ticker ticker .option data_df daily_df price criteria
      earnings = .ok (r, df')) :
    r.dmi_confirmation = none ∧ r.ema_crossover = none ∧
    r.macd_crossover = none ∧ r.weekly_macd = none ∧
    r.avoid_squeeze = none ∧ r.next_earning_date = none ∧
    (criteria.rsi_confirmation = true → data_df.empty = false →
      r.rsi_confirmation.isSome = true) := by
  have hopt : (AssetType.option = AssetType.stock) = False := by simp
  simp only [analyze_ticker, hopt, and_false, if_false] at h
  split at h
  case isTrue hcond =>
    injection h with h'
    injection h' with hr hdf
    subst hr
    exact ⟨rfl, rfl, rfl, rfl, rfl, rfl, fun _ _ => rfl⟩
  case isFalse hcond =>
    injection h with h'
    injection h' with hr hdf
    subst hr
    refine ⟨rfl, rfl, rfl, rfl, rfl, rfl, fun hcrit hemp => ?_⟩
    exact absurd ⟨hemp, hcrit⟩ hcond

/-- Witness for C4: an Option asset with every flag enabled gets no
stock-only verdicts but does get an rsi verdict. -/
theorem option_skips_stock_criteria_witness :
    c4Out = .ok (okResultOf c4Out, okFrameOf c4Out) ∧
    (okResultOf c4Out).dmi_confirmation = none ∧
    (okResultOf c4Out).ema_crossover = none ∧
    (okResultOf c4Out).macd_crossover = none ∧
    (okResultOf c4Out).weekly_macd = none ∧
    (okResultOf c4Out).avoid_squeeze = none ∧
    (okResultOf c4Out).next_earning_date = none ∧
    (okResultOf c4Out).rsi_confirmation.isSome = true := by
  have h := option_skips_stock_criteria "OPT" optFrame optFrame none
    allCriteria (none, "no earnings") (okResultOf c4Out) (okFrameOf c4Out)
    rfl
  exact ⟨rfl, h.1, h.2.1, h.2.2.1, h.2.2.2.1, h.2.2.2.2.1, h.2.2.2.2.2.1,
    h.2.2.2.2.2.2 rfl rfl⟩

/-- C8 amended.  On an empty long series the orchestrator still returns
normally (the batch continues), but the enabled indicator criteria are
left unreported — no verdict at all, not an all-Fail mapping — and the
long frame comes back unchanged.  (The earnings criterion, checked
outside the empty-guard, may still be reported.) -/
theorem empty_series_leaves_criteria_unreported (ticker : String)
    (at_ : AssetType) (data_df daily_df : Frame) (price : Option ℚ)
    (criteria : Criteria) (earnings : Option String × String)
    (h : data_df.empty = true) :
    isOk (analyze_ticker ticker at_ data_df daily_df price criteria
      earnings) = true ∧
    ∀ r df', analyze_ticker ticker at_ data_df daily_df price criteria
        earnings = .ok (r, df') →
      r.rsi_confirmation = none ∧ r.dmi_confirmation = none ∧
      r.ema_crossover = none ∧ r.macd_crossover = none ∧
      r.weekly_macd = none ∧ r.avoid_squeeze = none ∧ df' = data_df := by
  have hne : (data_df.empty = false) = False := by simp [h]
  simp only [analyze_ticker, hne, false_and, if_false]
  constructor
  · split <;> rfl
  · intro r df' hEq
    split at hEq <;>
    · injection hEq with h'
      injection h' with hr hdf
      subst hr
      subst hdf
      exact ⟨rfl, rfl, rfl, rfl, rfl, rfl,
        (rsiFrameStep_effect data_df criteria).2.2.2.2.2.1 (Or.inr h)⟩

/-- C8 counterexample: with an empty long series and every criterion
enabled, the returned result carries NO verdict for the enabled
rsi_confirmation criterion — the criterion is left unreported, not mapped
to a Fail verdict as the claim states. -/
theorem empty_series_all_fail_counterexample :
    frame0.empty = true ∧ allCriteria.rsi_confirmation = true ∧
    c8Out = .ok (okResultOf c8Out, okFrameOf c8Out) ∧
    (okResultOf c8Out).rsi_confirmation = none :=
  ⟨rfl, rfl, rfl, rfl⟩

/-- Witness for the amended C8 at the concrete empty-series call. -/
theorem empty_series_leaves_criteria_unreported_witness :
    isOk c8Out = true ∧ (okResultOf c8Out).rsi_confirmation = none ∧
    (okResultOf c8Out).avoid_squeeze = none ∧ okFrameOf c8Out = frame0 := by
  have h := empty_series_leaves_criteria_unreported "TICK" .stock frame0
    frame0 none allCriteria (none, "upstream error") rfl
  have h2 := h.2 (okResultOf c8Out) (okFrameOf c8Out) rfl
  exact ⟨h.1, h2.1, h2.2.2.2.2.2.1, h2.2.2.2.2.2.2⟩

/-- C9 amended.  The indicator functions themselves are pure, but the
analysis pass is not: whenever rsi confirmation is enabled on a non-empty
long series, the orchestrator writes an RSI column into that frame.  No
bar column (open/high/low/close/volume) or the row count is ever touched,
the frame is returned unchanged when the rsi block does not run, and
otherwise it comes back exactly as the input with the RSI column set. -/
theorem analysis_frame_effect (ticker : String) (at_ : AssetType)
    (data_df daily_df : Frame) (price : Option ℚ) (criteria : Criteria)
    (earnings : Option String × String) (r : AnalysisResult) (df' : Frame)
    (h : analyze_ticker ticker at_ data_df daily_df price criteria
      earnings = .ok (r, df')) :
    df'.nrows = data_df.nrows ∧ df'.close? = data_df.close? ∧
    df'.high? = data_df.high? ∧ df'.low? = data_df.low? ∧
    df'.volume? = data_df.volume? ∧
    ((criteria.rsi_confirmation = false ∨ data_df.empty = true) →
      df' = data_df) ∧
    (criteria.rsi_confirmation = true → data_df.empty = false →
      df' = setRSI data_df (calculate_rsi data_df)) := by
  simp only [analyze_ticker] at h
  repeat' split at h
  all_goals first
    | (injection h with h'
       injection h' with hr hdf
       subst hdf
       exact rsiFrameStep_effect data_df criteria)
    | cases h

/-- C9 counterexample: the analysis pass modifies its input bar table —
with rsi confirmation enabled, the long frame comes back with an RSI
column it did not have, so the input `data_df` object is mutated. -/
theorem analysis_mutates_input_counterexample :
    rsiOnlyCriteria.rsi_confirmation = true ∧
    c9Out = .ok (okResultOf c9Out, okFrameOf c9Out) ∧
    okFrameOf c9Out ≠ rsiMutFrame ∧
    (okFrameOf c9Out).rsi? = some [none] ∧ rsiMutFrame.rsi? = none :=
  ⟨rfl, rfl, by decide, rfl, rfl⟩

/-- Witness for the amended C9 at the concrete call: the returned frame
is exactly the input with the RSI column set, bar columns unchanged. -/
theorem analysis_frame_effect_witness :
    (okFrameOf c9Out).close? = rsiMutFrame.close? ∧
    okFrameOf c9Out = setRSI rsiMutFrame (calculate_rsi rsiMutFrame) := by
  have h := analysis_frame_effect "MUT" .stock rsiMutFrame frame0 none
    rsiOnlyCriteria (none, "e") (okResultOf c9Out) (okFrameOf c9Out) rfl
  exact ⟨h.2.1, h.2.2.2.2.2.2 rfl rfl⟩

/-- C5.  The composite pass filter keeps a result exactly when some entry
of the result dict outside the three metadata keys is a verdict with Pass
or Warn status; in particular a result whose every evaluated criterion is
Fail is excluded and a result with one Warn is included. -/
theorem composite_pass_filter_spec (results : List AnalysisResult)
    (r : AnalysisResult) :
    (r ∈ filterPassing results ↔
      r ∈ results ∧ ∃ k v, (k, DictVal.verdictV v) ∈ r.items ∧
        metadataKeys.contains k = false ∧
        (v.status = .pass ∨ v.status = .warn)) ∧
    filterPassing [allFailResult] = [] ∧
    filterPassing [oneWarnResult] = [oneWarnResult] := by
  refine ⟨?_, by decide, by decide⟩
  rw [filterPassing, List.mem_filter]
  constructor
  · rintro ⟨hmem, hpass⟩
    refine ⟨hmem, ?_⟩
    rw [passesFilter, List.any_eq_true] at hpass
    obtain ⟨kv, hkv, hp⟩ := hpass
    rw [List.mem_filter] at hkv
    obtain ⟨hkv_items, hkey⟩ := hkv
    rcases kv with ⟨k, dv⟩
    cases dv with
    | verdictV v =>
      refine ⟨k, v, hkv_items, by simpa using hkey, ?_⟩
      simp only [DictVal.statusGet, Bool.or_eq_true, beq_iff_eq,
        Option.some.injEq] at hp
      exact hp
    | strV s => simp [DictVal.statusGet] at hp
    | assetV a => simp [DictVal.statusGet] at hp
    | priceV p => simp [DictVal.statusGet] at hp
  · rintro ⟨hmem, k, v, hin, hkey, hst⟩
    refine ⟨hmem, ?_⟩
    rw [passesFilter, List.any_eq_true]
    refine ⟨(k, .verdictV v), ?_, ?_⟩
    · rw [List.mem_filter]
      exact ⟨hin, by simpa using hkey⟩
    · simp only [DictVal.statusGet, Bool.or_eq_true, beq_iff_eq,
        Option.some.injEq]
      exact hst

/-- Witness for C2: the spec's breakout example warns, the flat-volume
variant passes, and a 30-row frame whose body raises fails. -/
theorem short_squeeze_spec_witness :
    (check_short_squeeze_risk sqWarnFrame).status = .warn ∧
    (check_short_squeeze_risk sqPassFrame).status = .pass ∧
    (check_short_squeeze_risk sqErrFrame).status = .fail := by
  refine ⟨?_, ?_, ?_⟩
  · have h := (short_squeeze_spec sqWarnFrame
      (List.replicate 30 100 ++ [105]) (List.replicate 30 1000 ++ [3000])
      rfl rfl (by simp [sqWarnFrame]) (by simp [sqWarnFrame])).2.1
      (by norm_num [sqWarnFrame])
    refine (h.2 105 100 (30/11) ?_ ?_ ?_).mpr ⟨by norm_num, by norm_num⟩
    · norm_num [List.replicate]
    · norm_num [resistanceSeries, shift1, rollingMax, rollingApply,
        List.range_succ, List.replicate]
    · norm_num [rvolSeries, rollingMean, rollingApply, divSafe?,
        List.range_succ, List.replicate]
  · have h := (short_squeeze_spec sqPassFrame
      (List.replicate 30 100 ++ [105]) (List.replicate 31 1000)
      rfl rfl (by simp [sqPassFrame]) (by simp [sqPassFrame])).2.1
      (by norm_num [sqPassFrame])
    have hiff := h.2 105 100 1
      (by norm_num [List.replicate])
      (by norm_num [resistanceSeries, shift1, rollingMax, rollingApply,
        List.range_succ, List.replicate])
      (by norm_num [rvolSeries, rollingMean, rollingApply, divSafe?,
        List.range_succ, List.replicate])
    rcases h.1 with hw | hp
    · exfalso
      have := hiff.mp hw
      norm_num at this
    · exact hp
  · exact (short_squeeze_spec sqWarnFrame
      (List.replicate 30 100 ++ [105]) (List.replicate 30 1000 ++ [3000])
      rfl rfl (by simp [sqWarnFrame]) (by simp [sqWarnFrame])).2.2
      sqErrFrame "KeyError: Close" (by norm_num [sqErrFrame]) rfl

/-- Witness for C1: on MACD = [−1, −0.5, 0.2] and Signal =
[−0.8, −0.6, 0.1] the evaluator passes through the rising branch. -/
theorem macd_crossover_or_rising_spec_witness :
    (check_macd_crossover_or_rising macdExampleM macdExampleS).status =
      .pass := by
  have h := (macd_crossover_or_rising_spec macdExampleM macdExampleS).2.1
    (-1/2) (1/5) (-3/5) (1/10)
    (by norm_num [macdExampleM, dropna, last2?])
    (by norm_num [macdExampleS, dropna, last2?])
  exact h.mpr (Or.inr (by norm_num))

/-- C6.  An indicator on a series shorter than its minimum lookback
returns an empty series rather than raising: `calculate_rsi` is empty
below `period` rows and `get_macd` is the empty pair below `slow` rows. -/
theorem insufficient_history_empty_series (df : Frame)
    (period fast slow signal_period : ℕ) :
    (df.nrows < period → calculate_rsi df period = []) ∧
    (df.nrows < slow → get_macd df fast slow signal_period = .ok ([], [])) := by
  constructor
  · intro h
    rcases hc : df.close? with _ | c <;> simp [calculate_rsi, hc, h]
  · intro h
    simp [get_macd, h]

/-- Witness for C6 at a three-bar frame with the source's default
parameters. -/
theorem insufficient_history_empty_series_witness :
    calculate_rsi tinyFrame 14 = [] ∧
      get_macd tinyFrame 12 26 9 = .ok ([], []) :=
  ⟨(insufficient_history_empty_series tinyFrame 14 12 26 9).1
      (by norm_num [tinyFrame]),
    (insufficient_history_empty_series tinyFrame 14 12 26 9).2
      (by norm_num [tinyFrame])⟩

/-- C7.  Contrary to the never-throwing design principle, the EMA
crossover evaluator has no exception guard: on a 21-row frame without a
Close column it raises a KeyError instead of returning a Fail verdict. -/
theorem ema_crossover_raises_on_missing_close :
    noCloseFrame.nrows = 21 ∧ noCloseFrame.close? = none ∧
      check_ema_crossover noCloseFrame 8 21 = .error "KeyError: Close" :=
  ⟨rfl, rfl, rfl⟩

theorem check_dmi_trend_body_status (df : Frame) (v : Verdict)
    (h : check_dmi_trend_body df = .ok v) :
    v.status = .pass ∨ v.status = .fail := by
  simp only [check_dmi_trend_body] at h
  repeat' split at h
  all_goals first
    | (injection h with h'; subst h'; exact Or.inl rfl)
    | (injection h with h'; subst h'; exact Or.inr rfl)
    | cases h

theorem check_ema_crossover_ok_status (df : Frame) (fast slow : ℕ)
    (v : Verdict) (h : check_ema_crossover df fast slow = .ok v) :
    v.status = .pass ∨ v.status = .fail := by
  simp only [check_ema_crossover] at h
  repeat' split at h
  all_goals first
    | (injection h with h'; subst h'; exact Or.inl rfl)
    | (injection h with h'; subst h'; exact Or.inr rfl)
    | cases h

theorem check_short_squeeze_risk_body_status (df : Frame) (v : Verdict)
    (h : check_short_squeeze_risk_body df = .ok v) :
    v.status = .warn ∨ v.status = .pass := by
  simp only [check_short_squeeze_risk_body] at h
  repeat' split at h
  all_goals first
    | (injection h with h'; subst h'; exact Or.inl rfl)
    | (injection h with h'; subst h'; exact Or.inr rfl)
    | cases h

/-- C10.  Every verdict status is one of Pass, Warn, Fail by construction,
and Warn can only come from the short-squeeze evaluator: the RSI, MACD,
DMI and EMA evaluators only ever produce Pass or Fail. -/
theorem verdict_status_partition (df1 df2 df3 df4 : Frame)
    (macd signal : List (Option ℚ)) (fast slow : ℕ) :
    ((check_rsi_condition df1).status = .pass ∨
      (check_rsi_condition df1).status = .fail) ∧
    ((check_macd_crossover_or_rising macd signal).status = .pass ∨
      (check_macd_crossover_or_rising macd signal).status = .fail) ∧
    ((check_dmi_trend df2).status = .pass ∨
      (check_dmi_trend df2).status = .fail) ∧
    (∀ v, check_ema_crossover df3 fast slow = .ok v →
      (v.status = .pass ∨ v.status = .fail)) ∧
    ((check_short_squeeze_risk df4).status = .pass ∨
      (check_short_squeeze_risk df4).status = .warn ∨
      (check_short_squeeze_risk df4).status = .fail) := by
  refine ⟨?_, ?_, ?_, ?_, ?_⟩
  · simp only [check_rsi_condition]
    rcases h1 : df1.rsi? with _ | col
    · exact Or.inr rfl
    · simp only []
      rcases h2 : last2? (dropna col) with _ | ⟨p, c⟩
      · exact Or.inr rfl
      · simp only []
        split_ifs
        · exact Or.inl rfl
        · exact Or.inr rfl
  · simp only [check_macd_crossover_or_rising]
    rcases hm : last2? (dropna macd) with _ | ⟨mp, ml⟩ <;>
      rcases hs : last2? (dropna signal) with _ | ⟨sp, sl⟩ <;>
      try exact Or.inr rfl
    simp only []
    split_ifs
    · exact Or.inl rfl
    · exact Or.inr rfl
  · simp only [check_dmi_trend]
    split_ifs
    · exact Or.inr rfl
    · rcases hb : check_dmi_trend_body df2 with e | v
      · exact Or.inr rfl
      · exact check_dmi_trend_body_status df2 v hb
  · exact fun v h => check_ema_crossover_ok_status df3 fast slow v h
  · simp only [check_short_squeeze_risk]
    split_ifs
    · exact Or.inr (Or.inr rfl)
    · rcases hb : check_short_squeeze_risk_body df4 with e | v
      · exact Or.inr (Or.inr rfl)
      · rcases check_short_squeeze_risk_body_status df4 v hb with h | h
        · exact Or.inr (Or.inl h)
        · exact Or.inl h

/-- C3.  The EMA crossover evaluator (spans 8 and 21): below 21 bars it
returns Fail; at 21 or more bars (on a well-formed frame with a Close
column) it never raises, returns only Pass or Fail, and passes exactly
when the fast EMA was at or below the slow EMA at the previous bar and is
strictly above it at the last bar — so a crossover that happened before
the last bar does not pass. -/
theorem ema_crossover_spec (df : Frame) (c : List ℚ)
    (hc : df.close? = some c) :
    (df.nrows < 21 → okStatus (check_ema_crossover df 8 21) = some .fail) ∧
    (21 ≤ df.nrows → ∀ pf cf ps cs,
      last2? (ewmSpan 8 c) = some (pf, cf) →
      last2? (ewmSpan 21 c) = some (ps, cs) →
      (okStatus (check_ema_crossover df 8 21) = some .pass ↔
        (pf ≤ ps ∧ cf > cs)) ∧
      (okStatus (check_ema_crossover df 8 21) = some .pass ∨
        okStatus (check_ema_crossover df 8 21) = some .fail)) := by
  constructor
  · intro h
    simp [check_ema_crossover, h, okStatus]
  · intro h pf cf ps cs h1 h2
    have h21 : ¬ df.nrows < 21 := by omega
    have hlt2 : ¬ df.nrows < 2 := by omega
    simp only [check_ema_crossover, if_neg h21, if_neg hlt2, hc, colE]
    rw [h1, h2]
    simp only []
    constructor
    · split_ifs with hcond
      · exact iff_of_true rfl hcond
      · exact iff_of_false
          (fun hEq => Status.noConfusion (Option.some.inj hEq)) hcond
    · split_ifs
      · exact Or.inl rfl
      · exact Or.inr rfl

/-- Witness for C3: the 21-bar example passes (fresh crossover at the last
bar) and the 22-bar example fails (the crossover happened one bar
earlier). -/
theorem ema_crossover_spec_witness :
    okStatus (check_ema_crossover emaFrame21 8 21) = some .pass ∧
    okStatus (check_ema_crossover emaFrame22 8 21) = some .fail := by
  constructor
  · have h := (ema_crossover_spec emaFrame21 emaClose21 rfl).2
      (by norm_num [emaFrame21]) (88/9) (814/81) (109/11) (1211/121)
      (by norm_num [emaClose21, ewmSpan, ewmSpanGo, last2?, List.replicate])
      (by norm_num [emaClose21, ewmSpan, ewmSpanGo, last2?, List.replicate])
    exact h.1.mpr ⟨by norm_num, by norm_num⟩
  · have h := (ema_crossover_spec emaFrame22 emaClose22 rfl).2
      (by norm_num [emaFrame22]) (814/81) (7480/729) (1211/121) (13441/1331)
      (by norm_num [emaClose22, ewmSpan, ewmSpanGo, last2?, List.replicate])
      (by norm_num [emaClose22, ewmSpan, ewmSpanGo, last2?, List.replicate])
    rcases h.2 with hp | hf
    · exfalso
      have := h.1.mp hp
      have hgt : ¬ ((814 : ℚ)/81 ≤ 1211/121) := by norm_num
      exact hgt this.1
    · exact hf

/-- Witness for C10 at concrete inputs (the EMA conjunct instantiated on
the empty frame, whose verdict is the insufficient-data Fail). -/
theorem verdict_status_partition_witness :
    ((check_rsi_condition frame0).status = .pass ∨
      (check_rsi_condition frame0).status = .fail) ∧
    check_ema_crossover frame0 8 21 = .ok emaNotEnoughV ∧
    (emaNotEnoughV.status = .pass ∨ emaNotEnoughV.status = .fail) ∧
    ((check_short_squeeze_risk frame0).status = .pass ∨
      (check_short_squeeze_risk frame0).status = .warn ∨
      (check_short_squeeze_risk frame0).status = .fail) := by
  have h := verdict_status_partition frame0 frame0 frame0 frame0 [] [] 8 21
  exact ⟨h.1, rfl, h.2.2.2.1 emaNotEnoughV rfl, h.2.2.2.2⟩

end FlaskTA
